import Mathlib

/-!
Shallow embedding of the Tor connection manager of the UltraBrowser
repository: `src/ultrabrowser/config.py` (the `TorConfig` dataclass) and
`src/ultrabrowser/tor_logic.py` (the `TorManager` class).

Network effects (control-port connections, SOCKS probes, mutation of the
Qt application-wide proxy) are modelled by an environment record `Env`
fixing the outcome of each primitive, and by a trace of `NetEvent`s the
operation emits.  Python exceptions raised by the manager are modelled
with `Except TorError`; in non-debug mode the manager returns `Except.ok
false` instead of raising, exactly as the source does.
-/

namespace UltraBrowser

/-- Embeds the `TorConfig` dataclass of `src/ultrabrowser/config.py`
(lines 15-22): five fields with defaults, no validation logic. -/
structure TorConfig where
  socks_port : Int := 9050
  control_port : Int := 9051
  host : String := "127.0.0.1"
  timeout : Int := 10
  retry_attempts : Int := 3
deriving DecidableEq, Repr

/-- The `ConfigurationError` exception class of
`src/ultrabrowser/exceptions.py`. -/
inductive ConfigurationError where
  | configurationError (msg : String)
deriving DecidableEq, Repr

/-- Embeds constructing the `TorConfig` dataclass.  The `@dataclass`
decorator generates an `__init__` that merely assigns the fields; there
is no `__post_init__` and no validation anywhere in the class, so
construction always succeeds and never raises `ConfigurationError`. -/
def TorConfig.construct (socks_port control_port : Int) (host : String)
    (timeout retry_attempts : Int) : Except ConfigurationError TorConfig :=
  Except.ok { socks_port := socks_port, control_port := control_port,
              host := host, timeout := timeout, retry_attempts := retry_attempts }

/-- The Qt proxy kinds used by `tor_logic.py`: `Socks5Proxy`, `NoProxy`,
and the default kind a fresh `QNetworkProxy()` carries before the
application ever sets one. -/
inductive ProxyType where
  | defaultProxy
  | socks5Proxy
  | noProxy
deriving DecidableEq, Repr

/-- A `QNetworkProxy` value: kind, host name, port. -/
structure QNetworkProxy where
  proxyType : ProxyType
  hostName : String := ""
  port : Int := 0
deriving DecidableEq, Repr

/-- The `QNetworkProxy(QNetworkProxy.ProxyType.NoProxy)` value built in
`disable_tor` (tor_logic.py line 155). -/
def noProxyValue : QNetworkProxy := { proxyType := ProxyType.noProxy }

/-- The process-wide proxy setting mutated by
`QNetworkProxy.setApplicationProxy`. -/
structure GlobalProxyState where
  applicationProxy : QNetworkProxy
deriving DecidableEq, Repr

/-- The application proxy before the manager has ever touched it:
Qt starts with a `DefaultProxy`-kinded value, not the SOCKS5 descriptor
and not the explicit `NoProxy` object. -/
def qtStartGlobal : GlobalProxyState :=
  { applicationProxy := { proxyType := ProxyType.defaultProxy } }

/-- Python exceptions the control-port primitive can raise, as matched
by `is_tor_running`: the first `except` clause catches
`(ConnectionRefusedError, OSError)` (and `ConnectionRefusedError` is a
subclass of `OSError`), the second catches every remaining `Exception`
and inspects its message. -/
inductive PyExc where
  | connectionRefused (msg : String)
  | osError (msg : String)
  | otherExc (msg : String)
deriving DecidableEq, Repr

/-- Outcome of `Controller.from_port(...)` followed by
`controller.authenticate()`: either both succeed or some exception is
raised. -/
inductive ControlOutcome where
  | ok
  | raises (e : PyExc)
deriving DecidableEq, Repr

/-- The typed error taxonomy of `src/ultrabrowser/exceptions.py` that
`tor_logic.py` raises in debug mode. -/
inductive TorError where
  | torNotRunning (msg : String)
  | torAuthentication (msg : String)
  | torConnection (msg : String)
  | torProxy (msg : String)
deriving DecidableEq, Repr

/-- Prefix test on character lists: `pat` starts `l`. -/
def charsHavePre : List Char → List Char → Bool
  | _, [] => true
  | [], _ :: _ => false
  | c :: cs, p :: ps => c == p && charsHavePre cs ps

/-- Substring test on character lists: `pat` occurs somewhere in `l`
(Python `pat in l`). -/
def charsContain : List Char → List Char → Bool
  | [], pat => charsHavePre [] pat
  | c :: cs, pat => charsHavePre (c :: cs) pat || charsContain cs pat

/-- The message heuristic of `is_tor_running` (tor_logic.py lines
76-77): `'authentication' in str(e).lower() or 'password' in
str(e).lower()`. -/
def isAuthMsg (msg : String) : Bool :=
  let lower := msg.toList.map Char.toLower
  charsContain lower "authentication".toList || charsContain lower "password".toList

/-- Observable I/O actions an operation performs, in order. -/
inductive NetEvent where
  | controlConnect (port : Int)
  | signalNewnym
  | socksProbe (host : String) (port : Int) (timeoutSecs : Int)
  | applyGlobalProxy (p : QNetworkProxy)
deriving DecidableEq, Repr

/-- Environment: the outcome of each network/OS primitive an operation
may invoke.  `socksConnectResult` is the errno returned by
`sock.connect_ex` (0 on success); `socksRaises` models the whole SOCKS
try-block raising instead; `proxySetRaises` models
`QNetworkProxy.setApplicationProxy` raising (in which case it does not
mutate the global setting); `identityRaises` models any step of the
`get_new_identity` control exchange raising. -/
structure Env where
  controlOutcome : ControlOutcome
  socksRaises : Option String := none
  socksConnectResult : Int := 0
  proxySetRaises : Option String := none
  identityRaises : Option String := none
deriving DecidableEq, Repr

/-- Embeds the Python-visible state of a `TorManager` instance
(tor_logic.py `__init__`, lines 27-50): the `tor_enabled` flag, the
owned config, the debug-mode flag, and the SOCKS5 `QNetworkProxy`
descriptor built once in the constructor. -/
structure TorManager where
  tor_enabled : Bool
  tor_config : TorConfig
  debug_mode : Bool
  proxy : QNetworkProxy
deriving DecidableEq, Repr

/-- `TorManager.__init__` with an explicit config and debug flag:
`tor_enabled = False` and the proxy descriptor is
SOCKS5/(host, socks_port). -/
def TorManager.mkInit (cfg : TorConfig) (debug : Bool) : TorManager :=
  { tor_enabled := false
    tor_config := cfg
    debug_mode := debug
    proxy := { proxyType := ProxyType.socks5Proxy
               hostName := cfg.host
               port := cfg.socks_port } }

/-- Embeds `TorManager.is_tor_running` (tor_logic.py lines 52-85).
Returns the result (or raised error) together with the trace: the
control connection to `(control_port)` is always attempted. -/
def TorManager.is_tor_running (m : TorManager) (ctl : ControlOutcome) :
    Except TorError Bool × List NetEvent :=
  let tr := [NetEvent.controlConnect m.tor_config.control_port]
  match ctl with
  | ControlOutcome.ok => (Except.ok true, tr)
  | ControlOutcome.raises e =>
    match e with
    | PyExc.connectionRefused msg =>
        (if m.debug_mode then Except.error (TorError.torNotRunning ("Tor no está ejecutándose: " ++ msg))
         else Except.ok false, tr)
    | PyExc.osError msg =>
        (if m.debug_mode then Except.error (TorError.torNotRunning ("Tor no está ejecutándose: " ++ msg))
         else Except.ok false, tr)
    | PyExc.otherExc msg =>
        if isAuthMsg msg then
          (if m.debug_mode then Except.error (TorError.torAuthentication ("Error de autenticación: " ++ msg))
           else Except.ok false, tr)
        else
          (if m.debug_mode then Except.error (TorError.torConnection ("Error inesperado: " ++ msg))
           else Except.ok false, tr)

/-- Embeds `TorManager.verify_tor_connection` (tor_logic.py lines
96-121): first the control-port check via `is_tor_running` (an error
raised there propagates, a `False` returns `False` with no SOCKS probe);
then a bare TCP probe of `(host, socks_port)` with the hardcoded
`sock.settimeout(5)`, succeeding exactly when `connect_ex` returns 0,
with any exception in the try-block swallowed into `False`. -/
def TorManager.verify_tor_connection (m : TorManager) (env : Env) :
    Except TorError Bool × List NetEvent :=
  match m.is_tor_running env.controlOutcome with
  | (Except.error e, tr) => (Except.error e, tr)
  | (Except.ok false, tr) => (Except.ok false, tr)
  | (Except.ok true, tr) =>
    let probe := NetEvent.socksProbe m.tor_config.host m.tor_config.socks_port 5
    match env.socksRaises with
    | some _ => (Except.ok false, tr ++ [probe])
    | none =>
      if env.socksConnectResult = 0 then (Except.ok true, tr ++ [probe])
      else (Except.ok false, tr ++ [probe])

/-- Embeds `TorManager.enable_tor` (tor_logic.py lines 123-144): if
`verify_tor_connection` fails, return `False` (or propagate its raised
error) touching nothing; otherwise call
`QNetworkProxy.setApplicationProxy(self.proxy)` and only then set
`tor_enabled = True`.  If `setApplicationProxy` raises, the global
setting is not mutated, `tor_enabled` keeps its prior value, and the
manager returns `False` (or raises `TorProxyError` in debug mode). -/
def TorManager.enable_tor (m : TorManager) (g : GlobalProxyState) (env : Env) :
    Except TorError Bool × TorManager × GlobalProxyState × List NetEvent :=
  match m.verify_tor_connection env with
  | (Except.error e, tr) => (Except.error e, m, g, tr)
  | (Except.ok false, tr) => (Except.ok false, m, g, tr)
  | (Except.ok _, tr) =>
    match env.proxySetRaises with
    | none =>
      (Except.ok true, { m with tor_enabled := true },
       { applicationProxy := m.proxy }, tr ++ [NetEvent.applyGlobalProxy m.proxy])
    | some msg =>
      (if m.debug_mode then Except.error (TorError.torProxy ("Error al configurar proxy: " ++ msg))
       else Except.ok false, m, g, tr)

/-- Embeds `TorManager.disable_tor` (tor_logic.py lines 146-163):
unconditionally call `setApplicationProxy(NoProxy)` and then set
`tor_enabled = False`.  If the primitive raises, the assignment is
skipped, so `tor_enabled` keeps its prior value and the manager returns
`False` (or raises `TorProxyError` in debug mode). -/
def TorManager.disable_tor (m : TorManager) (g : GlobalProxyState) (env : Env) :
    Except TorError Bool × TorManager × GlobalProxyState × List NetEvent :=
  match env.proxySetRaises with
  | none =>
    (Except.ok true, { m with tor_enabled := false },
     { applicationProxy := noProxyValue }, [NetEvent.applyGlobalProxy noProxyValue])
  | some msg =>
    (if m.debug_mode then Except.error (TorError.torProxy ("Error al deshabilitar proxy: " ++ msg))
     else Except.ok false, m, g, [])

/-- Embeds `TorManager.get_new_identity` (tor_logic.py lines 165-187):
when `tor_enabled` is false, return `False` at once with no I/O at all;
otherwise open a control connection, authenticate, `signal(NEWNYM)` and
close, returning `True`, with any exception turned into `False` (or a
raised `TorConnectionError` in debug mode). -/
def TorManager.get_new_identity (m : TorManager) (env : Env) :
    Except TorError Bool × TorManager × List NetEvent :=
  if m.tor_enabled = false then
    (Except.ok false, m, [])
  else
    match env.identityRaises with
    | none =>
      (Except.ok true, m,
       [NetEvent.controlConnect m.tor_config.control_port, NetEvent.signalNewnym])
    | some msg =>
      (if m.debug_mode then Except.error (TorError.torConnection ("Error al solicitar nueva identidad: " ++ msg))
       else Except.ok false, m,
       [NetEvent.controlConnect m.tor_config.control_port])

/-- The operations a caller (the UI toggle) can invoke on the manager. -/
inductive Op where
  | enableOp
  | disableOp
  | newIdentityOp
deriving DecidableEq, Repr

/-- Manager state paired with the process-wide proxy setting. -/
structure SysState where
  mgr : TorManager
  global : GlobalProxyState
deriving DecidableEq, Repr

/-- One operation applied to the combined state under environment
`env`; results and traces are discarded, only state is kept. -/
def stepOp (s : SysState) (op : Op) (env : Env) : SysState :=
  match op with
  | Op.enableOp =>
      let r := s.mgr.enable_tor s.global env
      { mgr := r.2.1, global := r.2.2.1 }
  | Op.disableOp =>
      let r := s.mgr.disable_tor s.global env
      { mgr := r.2.1, global := r.2.2.1 }
  | Op.newIdentityOp =>
      let r := s.mgr.get_new_identity env
      { mgr := r.2.1, global := s.global }

/-- Run a whole sequence of operations, each with its own environment. -/
def runOps (s : SysState) (l : List (Op × Env)) : SysState :=
  l.foldl (fun s p => stepOp s p.1 p.2) s

/-- The state right after `TorManager.__init__`: manager disabled, the
application proxy untouched by the manager. -/
def startSys (cfg : TorConfig) (debug : Bool) : SysState :=
  { mgr := TorManager.mkInit cfg debug, global := qtStartGlobal }

/-- The agreement predicate of the key invariant: never enabled while
the global proxy is the `NoProxy` setting, never disabled while the
global proxy is the manager's SOCKS5 descriptor. -/
def proxyAgrees (s : SysState) : Prop :=
  ¬(s.mgr.tor_enabled = true ∧ s.global.applicationProxy.proxyType = ProxyType.noProxy) ∧
  ¬(s.mgr.tor_enabled = false ∧ s.global.applicationProxy = s.mgr.proxy)

/-- Strengthened induction invariant: the manager's descriptor is the
SOCKS5-kinded proxy built in `__init__`, and the agreement predicate
holds. -/
def sysInv (s : SysState) : Prop :=
  s.mgr.proxy.proxyType = ProxyType.socks5Proxy ∧ proxyAgrees s

deriving instance DecidableEq for Except

/-- The four error kinds of the taxonomy, with messages erased. -/
inductive TorErrKind where
  | notRunningKind
  | authenticationKind
  | connectionKind
  | proxyKind
deriving DecidableEq, Repr

/-- The three-way classification `is_tor_running` applies to a raised
exception, as the claim states it: connection-refused or OS-level
socket error means Tor is not running; any other exception whose
message contains "authentication" or "password" is an authentication
failure; everything else is a generic connection failure. -/
def classifyCtlExc (e : PyExc) : TorErrKind :=
  match e with
  | PyExc.connectionRefused _ => TorErrKind.notRunningKind
  | PyExc.osError _ => TorErrKind.notRunningKind
  | PyExc.otherExc msg =>
    if isAuthMsg msg then TorErrKind.authenticationKind
    else TorErrKind.connectionKind

/-- The kind of a typed error. -/
def TorError.kind : TorError → TorErrKind
  | TorError.torNotRunning _ => TorErrKind.notRunningKind
  | TorError.torAuthentication _ => TorErrKind.authenticationKind
  | TorError.torConnection _ => TorErrKind.connectionKind
  | TorError.torProxy _ => TorErrKind.proxyKind

/-- Kind of the error a manager call raised, if it raised one. -/
def raisedKind : Except TorError Bool → Option TorErrKind
  | Except.error e => some e.kind
  | Except.ok _ => none

/-- Environment in which every primitive succeeds: control port
reachable and authenticable, SOCKS connect returns 0, the global proxy
mutation does not raise. -/
def envAllOk (env : Env) : Prop :=
  env.controlOutcome = ControlOutcome.ok ∧ env.socksRaises = none ∧
    env.socksConnectResult = 0 ∧ env.proxySetRaises = none

/-- Replace only the `retry_attempts` field of the manager's config. -/
def TorManager.setRetry (m : TorManager) (n : Int) : TorManager :=
  { m with tor_config := { m.tor_config with retry_attempts := n } }

/-! Helper lemmas shared by the claim theorems. -/

lemma is_tor_running_snd (m : TorManager) (ctl : ControlOutcome) :
    (m.is_tor_running ctl).2 = [NetEvent.controlConnect m.tor_config.control_port] := by
  cases ctl with
  | ok => rfl
  | raises e =>
    cases e <;> simp only [TorManager.is_tor_running] <;> split_ifs <;> rfl

lemma is_tor_running_ok_true_iff (m : TorManager) (ctl : ControlOutcome) :
    (m.is_tor_running ctl).1 = Except.ok true ↔ ctl = ControlOutcome.ok := by
  cases ctl with
  | ok => simp [TorManager.is_tor_running]
  | raises e =>
    cases e <;> simp [TorManager.is_tor_running] <;> split_ifs <;> simp

lemma is_tor_running_nondebug (m : TorManager) (ctl : ControlOutcome)
    (h : m.debug_mode = false) :
    (m.is_tor_running ctl).1 = Except.ok true ∨
    (m.is_tor_running ctl).1 = Except.ok false := by
  cases ctl with
  | ok => simp [TorManager.is_tor_running]
  | raises e => cases e <;> simp [TorManager.is_tor_running, h] <;> split_ifs <;> simp

lemma verify_ok_true_iff (m : TorManager) (env : Env) :
    (m.verify_tor_connection env).1 = Except.ok true ↔
      env.controlOutcome = ControlOutcome.ok ∧ env.socksRaises = none ∧
        env.socksConnectResult = 0 := by
  rcases env with ⟨ctl, sr, scr, pr, ir⟩
  cases ctl with
  | ok =>
    cases sr <;>
      simp [TorManager.verify_tor_connection, TorManager.is_tor_running] <;>
      split_ifs <;> simp_all
  | raises e =>
    cases e <;>
      simp [TorManager.verify_tor_connection, TorManager.is_tor_running] <;>
      split_ifs <;> simp

lemma verify_control_fail (m : TorManager) (env : Env) (e : PyExc)
    (h : env.controlOutcome = ControlOutcome.raises e) :
    (m.verify_tor_connection env).1 = (m.is_tor_running env.controlOutcome).1 ∧
    (m.verify_tor_connection env).2 =
      [NetEvent.controlConnect m.tor_config.control_port] := by
  cases e <;>
    simp [TorManager.verify_tor_connection, TorManager.is_tor_running, h] <;>
    split_ifs <;> simp

lemma verify_control_ok (m : TorManager) (env : Env)
    (h : env.controlOutcome = ControlOutcome.ok) :
    (m.verify_tor_connection env).2 =
      [NetEvent.controlConnect m.tor_config.control_port,
       NetEvent.socksProbe m.tor_config.host m.tor_config.socks_port 5] := by
  rcases env with ⟨ctl, sr, scr, pr, ir⟩
  subst h
  cases sr <;>
    simp [TorManager.verify_tor_connection, TorManager.is_tor_running] <;>
    split_ifs <;> simp

lemma verify_nondebug (m : TorManager) (env : Env) (h : m.debug_mode = false) :
    (m.verify_tor_connection env).1 = Except.ok true ∨
    (m.verify_tor_connection env).1 = Except.ok false := by
  rcases env with ⟨ctl, sr, scr, pr, ir⟩
  cases ctl with
  | ok =>
    cases sr <;>
      simp [TorManager.verify_tor_connection, TorManager.is_tor_running] <;>
      split_ifs <;> simp
  | raises e =>
    cases e <;>
      simp [TorManager.verify_tor_connection, TorManager.is_tor_running, h] <;>
      split_ifs <;> simp

lemma enable_not_verified (m : TorManager) (g : GlobalProxyState) (env : Env)
    (h : (m.verify_tor_connection env).1 = Except.ok false) :
    m.enable_tor g env =
      (Except.ok false, m, g, (m.verify_tor_connection env).2) := by
  unfold TorManager.enable_tor
  rcases hv : m.verify_tor_connection env with ⟨r, tr⟩
  rw [hv] at h
  simp at h
  subst h
  simp

lemma enable_error (m : TorManager) (g : GlobalProxyState) (env : Env)
    (err : TorError)
    (h : (m.verify_tor_connection env).1 = Except.error err) :
    m.enable_tor g env =
      (Except.error err, m, g, (m.verify_tor_connection env).2) := by
  unfold TorManager.enable_tor
  rcases hv : m.verify_tor_connection env with ⟨r, tr⟩
  rw [hv] at h
  simp at h
  subst h
  simp

lemma enable_verified (m : TorManager) (g : GlobalProxyState) (env : Env)
    (h : (m.verify_tor_connection env).1 = Except.ok true)
    (hp : env.proxySetRaises = none) :
    m.enable_tor g env =
      (Except.ok true, { m with tor_enabled := true },
       { applicationProxy := m.proxy },
       (m.verify_tor_connection env).2 ++ [NetEvent.applyGlobalProxy m.proxy]) := by
  unfold TorManager.enable_tor
  rcases hv : m.verify_tor_connection env with ⟨r, tr⟩
  rw [hv] at h
  simp at h
  subst h
  simp [hp]

lemma enable_proxy_raises (m : TorManager) (g : GlobalProxyState) (env : Env)
    (msg : String)
    (h : (m.verify_tor_connection env).1 = Except.ok true)
    (hp : env.proxySetRaises = some msg) :
    m.enable_tor g env =
      (if m.debug_mode then
         Except.error (TorError.torProxy ("Error al configurar proxy: " ++ msg))
       else Except.ok false, m, g, (m.verify_tor_connection env).2) := by
  unfold TorManager.enable_tor
  rcases hv : m.verify_tor_connection env with ⟨r, tr⟩
  rw [hv] at h
  simp at h
  subst h
  simp [hp]

lemma enable_state_cases (m : TorManager) (g : GlobalProxyState) (env : Env) :
    ((m.enable_tor g env).2.1 = m ∧ (m.enable_tor g env).2.2.1 = g) ∨
    ((m.enable_tor g env).2.1 = { m with tor_enabled := true } ∧
     (m.enable_tor g env).2.2.1 = { applicationProxy := m.proxy }) := by
  unfold TorManager.enable_tor
  rcases hv : m.verify_tor_connection env with ⟨r, tr⟩
  rcases r with e | b
  · simp
  · cases b
    · simp
    · rcases hp : env.proxySetRaises with _ | msg <;> simp [hp]

lemma disable_state_cases (m : TorManager) (g : GlobalProxyState) (env : Env) :
    ((m.disable_tor g env).2.1 = m ∧ (m.disable_tor g env).2.2.1 = g) ∨
    ((m.disable_tor g env).2.1 = { m with tor_enabled := false } ∧
     (m.disable_tor g env).2.2.1 = { applicationProxy := noProxyValue }) := by
  unfold TorManager.disable_tor
  rcases hp : env.proxySetRaises with _ | msg <;> simp [hp]

lemma identity_mgr_unchanged (m : TorManager) (env : Env) :
    (m.get_new_identity env).2.1 = m := by
  unfold TorManager.get_new_identity
  rcases h : m.tor_enabled with _ | _ <;>
    rcases hi : env.identityRaises with _ | msg <;> simp [h, hi]

lemma stepOp_preserves (s : SysState) (op : Op) (env : Env)
    (h : sysInv s) : sysInv (stepOp s op env) := by
  obtain ⟨hty, hag⟩ := h
  cases op with
  | enableOp =>
    rcases enable_state_cases s.mgr s.global env with ⟨h1, h2⟩ | ⟨h1, h2⟩ <;>
      simp only [stepOp, sysInv, proxyAgrees, h1, h2]
    · exact ⟨hty, hag⟩
    · refine ⟨hty, ?_, ?_⟩
      · intro ⟨_, hp⟩
        rw [hty] at hp
        exact ProxyType.noConfusion hp
      · intro ⟨hfalse, _⟩
        exact Bool.noConfusion hfalse
  | disableOp =>
    rcases disable_state_cases s.mgr s.global env with ⟨h1, h2⟩ | ⟨h1, h2⟩ <;>
      simp only [stepOp, sysInv, proxyAgrees, h1, h2]
    · exact ⟨hty, hag⟩
    · refine ⟨hty, ?_, ?_⟩
      · intro ⟨htrue, _⟩
        exact Bool.noConfusion htrue
      · intro ⟨_, hp⟩
        have : noProxyValue.proxyType = s.mgr.proxy.proxyType := by rw [hp]
        rw [hty] at this
        exact ProxyType.noConfusion this
  | newIdentityOp =>
    simp only [stepOp, sysInv, proxyAgrees, identity_mgr_unchanged]
    exact ⟨hty, hag⟩

lemma runOps_preserves (s : SysState) (l : List (Op × Env))
    (h : sysInv s) : sysInv (runOps s l) := by
  induction l generalizing s with
  | nil => exact h
  | cons p t ih =>
    simp only [runOps, List.foldl]
    exact ih _ (stepOp_preserves _ _ _ h)

lemma startSys_inv (cfg : TorConfig) (debug : Bool) :
    sysInv (startSys cfg debug) := by
  refine ⟨rfl, ?_, ?_⟩
  · intro ⟨h, _⟩
    exact Bool.noConfusion h
  · intro ⟨_, hp⟩
    have : (startSys cfg debug).global.applicationProxy.proxyType =
        (startSys cfg debug).mgr.proxy.proxyType := by rw [hp]
    exact ProxyType.noConfusion this

/-- C1: for every sequence of enable/disable/requestNewIdentity
operations, each with an arbitrary environment, the manager never ends
an operation with `tor_enabled = true` while the global proxy setting is
the `NoProxy` value, nor with `tor_enabled = false` while the global
proxy setting is the SOCKS5 descriptor: the flag and the published
global proxy state agree after every operation. -/
theorem tor_C1_enabled_global_proxy_agreement
    (cfg : TorConfig) (debug : Bool) (l : List (Op × Env)) :
    proxyAgrees (runOps (startSys cfg debug) l) :=
  (runOps_preserves _ l (startSys_inv cfg debug)).2

lemma verify_snd_head (m : TorManager) (env : Env) :
    (m.verify_tor_connection env).2.head? =
      some (NetEvent.controlConnect m.tor_config.control_port) := by
  rcases hc : env.controlOutcome with _ | e
  · rw [verify_control_ok m env hc]
    rfl
  · rw [(verify_control_fail m env e hc).2]
    rfl

lemma enable_snd_cases (m : TorManager) (g : GlobalProxyState) (env : Env) :
    (m.enable_tor g env).2.2.2 = (m.verify_tor_connection env).2 ∨
    (m.enable_tor g env).2.2.2 =
      (m.verify_tor_connection env).2 ++ [NetEvent.applyGlobalProxy m.proxy] := by
  unfold TorManager.enable_tor
  rcases hv : m.verify_tor_connection env with ⟨r, tr⟩
  rcases r with e | b
  · left; simp
  · cases b
    · left; simp
    · rcases hp : env.proxySetRaises with _ | msg
      · right; simp [hp]
      · left; simp [hp]

lemma enable_snd_not_verified (m : TorManager) (g : GlobalProxyState) (env : Env)
    (h : (m.verify_tor_connection env).1 ≠ Except.ok true) :
    (m.enable_tor g env).2.2.2 = (m.verify_tor_connection env).2 := by
  rcases hr : (m.verify_tor_connection env).1 with err | b
  · rw [enable_error m g env err hr]
  · cases b
    · rw [enable_not_verified m g env hr]
    · exact absurd hr h

/-- C2: `enable_tor` changes the global proxy state only when the
control-port check and the SOCKS-port check both succeed; its trace
always starts with the control-port connection attempt; and when the
control-port check fails the trace is exactly that single attempt, so
the SOCKS probe is never attempted. -/
theorem tor_C2_enable_gating (m : TorManager) (g : GlobalProxyState) (env : Env) :
    ((m.enable_tor g env).2.2.1 ≠ g →
       env.controlOutcome = ControlOutcome.ok ∧ env.socksRaises = none ∧
         env.socksConnectResult = 0) ∧
    ((m.enable_tor g env).2.2.2.head? =
       some (NetEvent.controlConnect m.tor_config.control_port)) ∧
    (env.controlOutcome ≠ ControlOutcome.ok →
       (m.enable_tor g env).2.2.2 =
         [NetEvent.controlConnect m.tor_config.control_port]) := by
  refine ⟨?_, ?_, ?_⟩
  · intro hne
    by_cases hv : (m.verify_tor_connection env).1 = Except.ok true
    · exact (verify_ok_true_iff m env).1 hv
    · exfalso
      rcases hr : (m.verify_tor_connection env).1 with err | b
      · rw [enable_error m g env err hr] at hne
        exact hne rfl
      · cases b
        · rw [enable_not_verified m g env hr] at hne
          exact hne rfl
        · exact hv hr
  · rcases enable_snd_cases m g env with h | h <;> rw [h]
    · exact verify_snd_head m env
    · rcases hc : env.controlOutcome with _ | e
      · rw [verify_control_ok m env hc]
        rfl
      · rw [(verify_control_fail m env e hc).2]
        rfl
  · intro hctl
    rcases hc : env.controlOutcome with _ | e
    · exact absurd hc hctl
    · have hfail := verify_control_fail m env e hc
      have hnotok : (m.verify_tor_connection env).1 ≠ Except.ok true := by
        rw [hfail.1]
        intro hcontr
        rw [is_tor_running_ok_true_iff, hc] at hcontr
        exact ControlOutcome.noConfusion hcontr
      rw [enable_snd_not_verified m g env hnotok, hfail.2]

/-- Witness for C2: with the control connection refused, enable's trace
is exactly the one control-port attempt. -/
theorem tor_C2_enable_gating_witness :
    ((TorManager.mkInit {} false).enable_tor qtStartGlobal
        { controlOutcome := ControlOutcome.raises (PyExc.connectionRefused "refused") }).2.2.2 =
      [NetEvent.controlConnect 9051] :=
  (tor_C2_enable_gating (TorManager.mkInit {} false) qtStartGlobal
    { controlOutcome := ControlOutcome.raises (PyExc.connectionRefused "refused") }).2.2
    (by simp)

/-- C3: every exception raised by the control-port check is classified
by `classifyCtlExc` (connection-refused / OS error is "not running",
an authentication-shaped message is "authentication", everything else
is the generic connection error); non-debug mode returns `False` for
every exception, debug mode raises an error of exactly the classified
kind — the classification does not depend on the mode. -/
theorem tor_C3_control_error_classification (m : TorManager) (e : PyExc) :
    (m.debug_mode = false →
       (m.is_tor_running (ControlOutcome.raises e)).1 = Except.ok false) ∧
    (m.debug_mode = true →
       raisedKind (m.is_tor_running (ControlOutcome.raises e)).1 =
         some (classifyCtlExc e)) := by
  constructor <;> intro h <;>
    cases e <;>
      simp [TorManager.is_tor_running, h, classifyCtlExc, raisedKind,
            TorError.kind] <;>
      split_ifs <;> rfl

/-- Witness for C3: connection refused returns `False` in non-debug
mode, and a password-shaped message raises the authentication kind in
debug mode. -/
theorem tor_C3_witness :
    ((TorManager.mkInit {} false).is_tor_running
        (ControlOutcome.raises (PyExc.connectionRefused "refused"))).1 =
      Except.ok false ∧
    raisedKind ((TorManager.mkInit {} true).is_tor_running
        (ControlOutcome.raises (PyExc.otherExc "Bad Password"))).1 =
      some TorErrKind.authenticationKind := by
  constructor
  · exact (tor_C3_control_error_classification (TorManager.mkInit {} false)
      (PyExc.connectionRefused "refused")).1 rfl
  · have h := (tor_C3_control_error_classification (TorManager.mkInit {} true)
      (PyExc.otherExc "Bad Password")).2 rfl
    rw [h]
    rfl

/-- C4: whenever `verify_tor_connection` does not succeed, `enable_tor`
in non-debug mode returns `False`, leaves the manager (in particular
the `tor_enabled` flag) exactly as it was, and does not mutate the
global proxy state in any way. -/
theorem tor_C4_failed_enable_preserves_state (m : TorManager)
    (g : GlobalProxyState) (env : Env)
    (hdbg : m.debug_mode = false)
    (hfail : (m.verify_tor_connection env).1 ≠ Except.ok true) :
    (m.enable_tor g env).1 = Except.ok false ∧
    (m.enable_tor g env).2.1 = m ∧
    (m.enable_tor g env).2.2.1 = g ∧
    (m.enable_tor g env).2.1.tor_enabled = m.tor_enabled := by
  rcases verify_nondebug m env hdbg with h | h
  · exact absurd h hfail
  · rw [enable_not_verified m g env h]
    exact ⟨rfl, rfl, rfl, rfl⟩

/-- Witness for C4: control connection refused on a freshly constructed
manager leaves everything unchanged and returns `False`. -/
theorem tor_C4_witness :
    ((TorManager.mkInit {} false).enable_tor qtStartGlobal
        { controlOutcome := ControlOutcome.raises (PyExc.connectionRefused "refused") }).1 =
      Except.ok false ∧
    ((TorManager.mkInit {} false).enable_tor qtStartGlobal
        { controlOutcome := ControlOutcome.raises (PyExc.connectionRefused "refused") }).2.1 =
      TorManager.mkInit {} false ∧
    ((TorManager.mkInit {} false).enable_tor qtStartGlobal
        { controlOutcome := ControlOutcome.raises (PyExc.connectionRefused "refused") }).2.2.1 =
      qtStartGlobal := by
  have h := tor_C4_failed_enable_preserves_state (TorManager.mkInit {} false)
    qtStartGlobal
    { controlOutcome := ControlOutcome.raises (PyExc.connectionRefused "refused") }
    rfl (by decide)
  exact ⟨h.1, h.2.1, h.2.2.1⟩

/-- Counterexample to C5: with `timeout = 10` in the config, the SOCKS
probe performed by `verify_tor_connection` uses a socket timeout of 5
seconds — the hardcoded `sock.settimeout(5)` of tor_logic.py line 110 —
which is not the configured `timeoutSeconds`; the probe timeout is even
unchanged when the config carries `timeout = 999`. -/
theorem tor_C5_counterexample :
    ((TorManager.mkInit ({ timeout := 10 } : TorConfig) false).verify_tor_connection
        { controlOutcome := ControlOutcome.ok }).2 =
      [NetEvent.controlConnect 9051,
       NetEvent.socksProbe "127.0.0.1" 9050 5] ∧
    (5 : Int) ≠ ({ timeout := 10 } : TorConfig).timeout ∧
    ((TorManager.mkInit ({ timeout := 999 } : TorConfig) false).verify_tor_connection
        { controlOutcome := ControlOutcome.ok }).2 =
      [NetEvent.controlConnect 9051,
       NetEvent.socksProbe "127.0.0.1" 9050 5] :=
  ⟨rfl, by decide, rfl⟩

/-- C5 (amended): when the control-port check passes, the SOCKS-port
probe of `verify_tor_connection` is a single bare TCP connection to
`(host, socks_port)` with a fixed 5-second socket timeout (not derived
from `config.timeoutSeconds`), it performs no protocol exchange, and
verification succeeds exactly when the connect completes with result
0. -/
theorem tor_C5_socks_probe_amended (m : TorManager) (env : Env)
    (h : env.controlOutcome = ControlOutcome.ok) :
    (m.verify_tor_connection env).2 =
      [NetEvent.controlConnect m.tor_config.control_port,
       NetEvent.socksProbe m.tor_config.host m.tor_config.socks_port 5] ∧
    ((m.verify_tor_connection env).1 = Except.ok true ↔
      env.socksRaises = none ∧ env.socksConnectResult = 0) := by
  refine ⟨verify_control_ok m env h, ?_⟩
  rw [verify_ok_true_iff]
  simp [h]

/-- Witness for C5 (amended): on the default config the probe targets
127.0.0.1:9050 with the fixed 5-second timeout. -/
theorem tor_C5_witness :
    ((TorManager.mkInit {} false).verify_tor_connection
        { controlOutcome := ControlOutcome.ok }).2 =
      [NetEvent.controlConnect 9051,
       NetEvent.socksProbe "127.0.0.1" 9050 5] :=
  (tor_C5_socks_probe_amended (TorManager.mkInit {} false)
    { controlOutcome := ControlOutcome.ok } rfl).1

/-- Counterexample to C6: constructing a `TorConfig` with
`control_port = 70000` (outside [1, 65535]) succeeds, and so does
constructing one with an empty host — the dataclass performs no
validation and never raises `ConfigurationError`. -/
theorem tor_C6_counterexample :
    TorConfig.construct 9050 70000 "127.0.0.1" 10 3 =
      Except.ok { socks_port := 9050, control_port := 70000,
                  host := "127.0.0.1", timeout := 10, retry_attempts := 3 } ∧
    TorConfig.construct 9050 9051 "" 10 3 =
      Except.ok { socks_port := 9050, control_port := 9051, host := "",
                  timeout := 10, retry_attempts := 3 } :=
  ⟨rfl, rfl⟩

/-- C6 (amended): constructing a `TorConfig` performs no validation at
all: for every combination of ports (in range or not) and every host
(empty or not) construction succeeds with exactly the given field
values and never fails with a `ConfigurationError`. -/
theorem tor_C6_construct_never_fails (sp cp : Int) (h : String) (t r : Int) :
    TorConfig.construct sp cp h t r =
      Except.ok { socks_port := sp, control_port := cp, host := h,
                  timeout := t, retry_attempts := r } :=
  rfl

/-- C7: whenever `tor_enabled` is false, `get_new_identity` returns
`False`, leaves the manager unchanged, and its trace is empty — no
control connection, authentication, or signal is attempted. -/
theorem tor_C7_identity_noop_when_disabled (m : TorManager) (env : Env)
    (h : m.tor_enabled = false) :
    m.get_new_identity env = (Except.ok false, m, []) := by
  unfold TorManager.get_new_identity
  simp [h]

/-- Witness for C7: a freshly constructed (disabled) manager rotating
identity performs no I/O and reports failure. -/
theorem tor_C7_witness :
    (TorManager.mkInit {} false).get_new_identity
        { controlOutcome := ControlOutcome.ok } =
      (Except.ok false, TorManager.mkInit {} false, []) :=
  tor_C7_identity_noop_when_disabled (TorManager.mkInit {} false)
    { controlOutcome := ControlOutcome.ok } rfl

/-- C8: invoking `enable_tor` while the manager is already enabled (the
state after a successful enable) is a no-op success: the liveness
verification is re-run (the trace again starts with the control-port
attempt), the call returns `True`, and the manager state and published
global proxy descriptor are exactly those after the first successful
enable. -/
theorem tor_C8_enable_idempotent (m : TorManager) (g : GlobalProxyState)
    (env1 env2 : Env) (h1 : envAllOk env1) (h2 : envAllOk env2) :
    (m.enable_tor g env1).1 = Except.ok true ∧
    (m.enable_tor g env1).2.1.tor_enabled = true ∧
    ((m.enable_tor g env1).2.1.enable_tor (m.enable_tor g env1).2.2.1 env2).1 =
      Except.ok true ∧
    ((m.enable_tor g env1).2.1.enable_tor (m.enable_tor g env1).2.2.1 env2).2.1 =
      (m.enable_tor g env1).2.1 ∧
    ((m.enable_tor g env1).2.1.enable_tor (m.enable_tor g env1).2.2.1 env2).2.2.1 =
      (m.enable_tor g env1).2.2.1 ∧
    ((m.enable_tor g env1).2.1.enable_tor
        (m.enable_tor g env1).2.2.1 env2).2.2.2.head? =
      some (NetEvent.controlConnect m.tor_config.control_port) := by
  obtain ⟨hc1, hs1, hr1, hp1⟩ := h1
  obtain ⟨hc2, hs2, hr2, hp2⟩ := h2
  have hv1 : (m.verify_tor_connection env1).1 = Except.ok true :=
    (verify_ok_true_iff m env1).2 ⟨hc1, hs1, hr1⟩
  have e1 := enable_verified m g env1 hv1 hp1
  have hv2 : (({ m with tor_enabled := true } : TorManager).verify_tor_connection
      env2).1 = Except.ok true :=
    (verify_ok_true_iff _ env2).2 ⟨hc2, hs2, hr2⟩
  have e2 := enable_verified ({ m with tor_enabled := true } : TorManager)
    ({ applicationProxy := m.proxy } : GlobalProxyState) env2 hv2 hp2
  have hhead : ((({ m with tor_enabled := true } : TorManager).verify_tor_connection
      env2).2 ++ [NetEvent.applyGlobalProxy m.proxy]).head? =
      some (NetEvent.controlConnect m.tor_config.control_port) := by
    rw [verify_control_ok ({ m with tor_enabled := true } : TorManager) env2 hc2]
    rfl
  rw [e1]
  refine ⟨rfl, rfl, ?_, ?_, ?_, ?_⟩ <;> rw [e2] <;> try rfl
  exact hhead

/-- Witness for C8: on the default config with every probe succeeding,
the second enable while already enabled returns `True` and leaves the
already-enabled state unchanged. -/
theorem tor_C8_witness :
    (((TorManager.mkInit {} false).enable_tor qtStartGlobal
          { controlOutcome := ControlOutcome.ok }).2.1.enable_tor
        ((TorManager.mkInit {} false).enable_tor qtStartGlobal
          { controlOutcome := ControlOutcome.ok }).2.2.1
        { controlOutcome := ControlOutcome.ok }).1 = Except.ok true ∧
    (((TorManager.mkInit {} false).enable_tor qtStartGlobal
          { controlOutcome := ControlOutcome.ok }).2.1.enable_tor
        ((TorManager.mkInit {} false).enable_tor qtStartGlobal
          { controlOutcome := ControlOutcome.ok }).2.2.1
        { controlOutcome := ControlOutcome.ok }).2.1 =
      ((TorManager.mkInit {} false).enable_tor qtStartGlobal
          { controlOutcome := ControlOutcome.ok }).2.1 := by
  have h := tor_C8_enable_idempotent (TorManager.mkInit {} false) qtStartGlobal
    { controlOutcome := ControlOutcome.ok } { controlOutcome := ControlOutcome.ok }
    ⟨rfl, rfl, rfl, rfl⟩ ⟨rfl, rfl, rfl, rfl⟩
  exact ⟨h.2.2.1, h.2.2.2.1⟩

lemma setRetry_is_tor_running (m : TorManager) (n : Int) (ctl : ControlOutcome) :
    (m.setRetry n).is_tor_running ctl = m.is_tor_running ctl := by
  cases ctl with
  | ok => rfl
  | raises e => cases e <;> rfl

lemma setRetry_verify (m : TorManager) (n : Int) (env : Env) :
    (m.setRetry n).verify_tor_connection env = m.verify_tor_connection env := by
  unfold TorManager.verify_tor_connection
  rw [setRetry_is_tor_running]
  rcases hr : m.is_tor_running env.controlOutcome with ⟨r, tr⟩
  rcases r with e | b
  · rfl
  · cases b
    · rfl
    · rcases hs : env.socksRaises with _ | msg <;>
        simp [hs, TorManager.setRetry]

/-- C9: the `retry_attempts` configuration field is never consumed:
changing it (and nothing else) leaves the result, the raised error, the
global proxy state, the emitted I/O trace, and the manager state change
of every operation — `is_tor_running`, `verify_tor_connection`,
`enable_tor`, `disable_tor`, `get_new_identity` — exactly the same; in
particular no retry loop is performed. -/
theorem tor_C9_retry_attempts_unused (m : TorManager) (n : Int)
    (g : GlobalProxyState) (env : Env) (ctl : ControlOutcome) :
    (m.setRetry n).is_tor_running ctl = m.is_tor_running ctl ∧
    (m.setRetry n).verify_tor_connection env = m.verify_tor_connection env ∧
    ((m.setRetry n).enable_tor g env).1 = (m.enable_tor g env).1 ∧
    ((m.setRetry n).enable_tor g env).2.1 = ((m.enable_tor g env).2.1).setRetry n ∧
    ((m.setRetry n).enable_tor g env).2.2.1 = (m.enable_tor g env).2.2.1 ∧
    ((m.setRetry n).enable_tor g env).2.2.2 = (m.enable_tor g env).2.2.2 ∧
    ((m.setRetry n).disable_tor g env).1 = (m.disable_tor g env).1 ∧
    ((m.setRetry n).disable_tor g env).2.1 = ((m.disable_tor g env).2.1).setRetry n ∧
    ((m.setRetry n).disable_tor g env).2.2.1 = (m.disable_tor g env).2.2.1 ∧
    ((m.setRetry n).disable_tor g env).2.2.2 = (m.disable_tor g env).2.2.2 ∧
    ((m.setRetry n).get_new_identity env).1 = (m.get_new_identity env).1 ∧
    ((m.setRetry n).get_new_identity env).2.1 =
      ((m.get_new_identity env).2.1).setRetry n ∧
    ((m.setRetry n).get_new_identity env).2.2 = (m.get_new_identity env).2.2 := by
  refine ⟨setRetry_is_tor_running m n ctl, setRetry_verify m n env, ?_, ?_, ?_, ?_,
          ?_, ?_, ?_, ?_, ?_, ?_, ?_⟩ <;>
    first
    | (unfold TorManager.enable_tor
       rw [setRetry_verify]
       rcases hv : m.verify_tor_connection env with ⟨r, tr⟩
       rcases r with e | b
       · simp [TorManager.setRetry]
       · cases b
         · simp [TorManager.setRetry]
         · rcases hp : env.proxySetRaises with _ | msg <;>
             simp [hp, TorManager.setRetry])
    | (unfold TorManager.disable_tor
       rcases hp : env.proxySetRaises with _ | msg <;>
         simp [hp, TorManager.setRetry])
    | (unfold TorManager.get_new_identity
       rcases he : m.tor_enabled with _ | _ <;>
         rcases hi : env.identityRaises with _ | msg <;>
           simp [he, hi, TorManager.setRetry])

/-- C10: when the global-proxy restore primitive raises during
`disable_tor` in non-debug mode, the call returns `False` and the
manager — in particular the `tor_enabled` flag — and the global proxy
state keep their prior values: the flag is cleared only on the success
path. -/
theorem tor_C10_failed_disable_keeps_flag (m : TorManager)
    (g : GlobalProxyState) (env : Env) (msg : String)
    (hdbg : m.debug_mode = false)
    (hp : env.proxySetRaises = some msg) :
    m.disable_tor g env = (Except.ok false, m, g, []) := by
  unfold TorManager.disable_tor
  rw [hp]
  simp [hdbg]

/-- Witness for C10: an enabled manager whose proxy restore raises
stays enabled and reports `False`. -/
theorem tor_C10_witness :
    (({ TorManager.mkInit {} false with tor_enabled := true } : TorManager).disable_tor
        qtStartGlobal
        { controlOutcome := ControlOutcome.ok, proxySetRaises := some "boom" }).1 =
      Except.ok false ∧
    (({ TorManager.mkInit {} false with tor_enabled := true } : TorManager).disable_tor
        qtStartGlobal
        { controlOutcome := ControlOutcome.ok, proxySetRaises := some "boom" }).2.1.tor_enabled =
      true := by
  have h := tor_C10_failed_disable_keeps_flag
    ({ TorManager.mkInit {} false with tor_enabled := true } : TorManager)
    qtStartGlobal
    { controlOutcome := ControlOutcome.ok, proxySetRaises := some "boom" }
    "boom" rfl rfl
  rw [h]
  exact ⟨rfl, rfl⟩

end UltraBrowser
